import Mathlib

/-!
Shallow embedding of the NZXT Grid V3 / Smart Device V1 HID driver
(`src/nzxt_grid.c`) and proofs of the specification claims about it.

Byte buffers are modelled as `List Nat` (each element a byte value),
C `long` values as `Int`, and the fallible kernel collaborators
(`kzalloc`, `hid_hw_output_report`, `hid_parse`, `hid_hw_start`,
`hid_hw_open`, `hwmon_device_register_with_info`) as explicit outcome
records threaded through the functions that call them.  Output-report
submissions and the probe/teardown steps are recorded in explicit traces.
-/

namespace NzxtGrid

/-- `NZXT_GRID_MAX_CHANNELS` from the source. -/
def NZXT_GRID_MAX_CHANNELS : Nat := 6

/-- `nzxt_grid_report_id_command` (= 2) from the source enum. -/
def nzxt_grid_report_id_command : Nat := 2

/-- `nzxt_grid_report_id_status` (= 4) from the source enum. -/
def nzxt_grid_report_id_status : Nat := 4

/-- `nzxt_grid_command_detect_fans` (= 0x5c). -/
def nzxt_grid_command_detect_fans : Nat := 0x5c

/-- `nzxt_grid_command_start_reporting` (= 0x5d). -/
def nzxt_grid_command_start_reporting : Nat := 0x5d

/-- `nzxt_grid_command_set_fan_speed` (= 0x4d). -/
def nzxt_grid_command_set_fan_speed : Nat := 0x4d

/-- `NZXT_GRID_OUTPUT_REPORT_SIZE` (= 65). -/
def NZXT_GRID_OUTPUT_REPORT_SIZE : Nat := 65

/-- Linux `EINVAL` errno value (the driver returns `-EINVAL`). -/
def EINVAL : Int := 22

/-- Linux `ENOMEM` errno value (`kzalloc` failure yields `-ENOMEM`). -/
def ENOMEM : Int := 12

/-- `enum nzxt_grid_fan_type` from the source:
`nzxt_grid_fan_none = 0`, `nzxt_grid_fan_dc = 1`, `nzxt_grid_fan_pwm = 2`. -/
inductive nzxt_grid_fan_type where
  | fan_none
  | fan_dc
  | fan_pwm
deriving DecidableEq

/-- The `switch (fan_type)` in `nzxt_grid_raw_event`: raw values 1 and 2 are
cast to the enum (`dc`, `pwm`); every other raw value stores
`nzxt_grid_fan_none`. -/
def nzxt_grid_fan_type_of_raw (fan_type : Nat) : nzxt_grid_fan_type :=
  if fan_type = 1 then .fan_dc
  else if fan_type = 2 then .fan_pwm
  else .fan_none

/-- `nzxt_grid_get_channel_index`: `report->channel_index_and_fan_type >> 4`.
Byte 15 of the packed `struct nzxt_grid_status_report` is the
`channel_index_and_fan_type` field. -/
def nzxt_grid_get_channel_index (data : List Nat) : Nat :=
  (data.getD 15 0) >>> 4

/-- `nzxt_grid_get_fan_type`: `report->channel_index_and_fan_type & 0x3`. -/
def nzxt_grid_get_fan_type (data : List Nat) : Nat :=
  (data.getD 15 0) &&& 0x3

/-- `struct nzxt_grid_channel_status` from the source (`long` fields as `Int`). -/
structure nzxt_grid_channel_status where
  type : nzxt_grid_fan_type
  speed_rpm : Int
  in_millivolt : Int
  curr_milliamp : Int
deriving DecidableEq

/-- The update written into `grid->channel[channel_index]` by
`nzxt_grid_raw_event`: the fan-type switch, `be16_to_cpup(&report->rpm)`
(bytes 3,4 big-endian), `in_volt * 1000L + in_centivolt * 10L`
(bytes 7,8), and `curr_amp * 1000L + curr_centiamp * 10L` (bytes 9,10),
per the packed struct layout. -/
def nzxt_grid_parse_update (data : List Nat) : nzxt_grid_channel_status :=
  { type := nzxt_grid_fan_type_of_raw (nzxt_grid_get_fan_type data)
    speed_rpm := (data.getD 3 0 : Int) * 256 + (data.getD 4 0 : Int)
    in_millivolt := (data.getD 7 0 : Int) * 1000 + (data.getD 8 0 : Int) * 10
    curr_milliamp := (data.getD 9 0 : Int) * 1000 + (data.getD 10 0 : Int) * 10 }

/-- The six-slot channel array of `struct nzxt_grid_device`. -/
abbrev Cache := Fin NZXT_GRID_MAX_CHANNELS → nzxt_grid_channel_status

/-- The zeroed channel array right after `devm_kzalloc` in probe:
all fields zero, `type = nzxt_grid_fan_none` (enum value 0). -/
def cache_zero : Cache :=
  fun _ => { type := .fan_none, speed_rpm := 0, in_millivolt := 0, curr_milliamp := 0 }

/-- `nzxt_grid_raw_event`: drops the event unless `size == sizeof(struct
nzxt_grid_status_report)` (= 21) and the decoded channel index is below
`NZXT_GRID_MAX_CHANNELS`; otherwise overwrites that channel's status under
the writer lock.  Always returns 0. -/
def nzxt_grid_raw_event (data : List Nat) (cache : Cache) : Cache × Int :=
  if data.length ≠ 21 then (cache, 0)
  else if h : nzxt_grid_get_channel_index data < NZXT_GRID_MAX_CHANNELS then
    (Function.update cache ⟨nzxt_grid_get_channel_index data, h⟩
       (nzxt_grid_parse_update data), 0)
  else (cache, 0)

/-- `nzxt_grid_reports`: the HID report table given to the HID core; it lists
only the status report id. -/
def nzxt_grid_reports : List Nat := [nzxt_grid_report_id_status]

/-- Modelled external behaviour: the HID core invokes a driver's `raw_event`
only for reports whose id (first byte) matches an entry of the driver's
declared `report_table`; with `nzxt_grid_reports` that means only id-4
reports reach `nzxt_grid_raw_event`.  This dispatch lives in the HID core,
outside `src/`; only the table declaration is in the source. -/
def nzxt_grid_deliver_event (data : List Nat) (cache : Cache) : Cache × Int :=
  if data.getD 0 0 ∈ nzxt_grid_reports then
    nzxt_grid_raw_event data cache
  else (cache, 0)

/-- `nzxt_grid_pwm_to_percent`: clamp negative input to 0, input ≥ 255 to
100, otherwise `hwmon_value * 100 / 255` (nonnegative, so C truncation
coincides with this division). -/
def nzxt_grid_pwm_to_percent (hwmon_value : Int) : Nat :=
  if hwmon_value < 0 then 0
  else if 255 ≤ hwmon_value then 100
  else (hwmon_value * 100 / 255).toNat

/-- Outcome of the external calls made by `nzxt_grid_send_output_report`:
whether `kzalloc` succeeds, and the return value of
`hid_hw_output_report`. -/
structure SendEnv where
  allocOk : Bool
  submitRet : Int
deriving DecidableEq

/-- `nzxt_grid_send_output_report`: allocate a zeroed 65-byte buffer (on
failure return `-ENOMEM` with nothing submitted), `memcpy` the report bytes
to its start, submit it with `hid_hw_output_report`, and return the
submission's error (negative) or 0.  The first component is the list of
buffers submitted to the transport. -/
def nzxt_grid_send_output_report (env : SendEnv) (data : List Nat) :
    List (List Nat) × Int :=
  if env.allocOk then
    ([data ++ List.replicate (NZXT_GRID_OUTPUT_REPORT_SIZE - data.length) 0],
     if env.submitRet < 0 then env.submitRet else 0)
  else ([], -ENOMEM)

/-- `struct nzxt_grid_command_set_fan_speed_output_report` as built by
`nzxt_grid_hwmon_write_pwm_input`: report id 2, command 0x4d, channel
index, reserved 0, fan speed percent. -/
def nzxt_grid_command_set_fan_speed_output_report
    (channel_index fan_speed_percent : Nat) : List Nat :=
  [nzxt_grid_report_id_command, nzxt_grid_command_set_fan_speed,
   channel_index, 0, fan_speed_percent]

/-- `nzxt_grid_hwmon_write_pwm_input`: build the set-fan-speed report — the
`(uint8_t)channel` cast reduces the int channel modulo 256 — and send it. -/
def nzxt_grid_hwmon_write_pwm_input (env : SendEnv) (channel val : Int) :
    List (List Nat) × Int :=
  nzxt_grid_send_output_report env
    (nzxt_grid_command_set_fan_speed_output_report
      (channel % 256).toNat (nzxt_grid_pwm_to_percent val))

/-- `enum hwmon_sensor_types` from `linux/hwmon.h`. -/
inductive hwmon_sensor_types where
  | hwmon_chip
  | hwmon_temp
  | hwmon_in
  | hwmon_curr
  | hwmon_power
  | hwmon_energy
  | hwmon_humidity
  | hwmon_fan
  | hwmon_pwm
  | hwmon_intrusion
deriving DecidableEq

/-- `hwmon_fan_input` attribute constant (hwmon attribute values only need
to be distinguished within their sensor kind). -/
def hwmon_fan_input : Nat := 1

/-- `hwmon_pwm_input` attribute constant. -/
def hwmon_pwm_input : Nat := 0

/-- `hwmon_pwm_mode` attribute constant. -/
def hwmon_pwm_mode : Nat := 2

/-- `hwmon_in_input` attribute constant. -/
def hwmon_in_input : Nat := 1

/-- `hwmon_curr_input` attribute constant. -/
def hwmon_curr_input : Nat := 1

/-- `nzxt_grid_hwmon_read_fan`: `hwmon_fan_input` yields `speed_rpm`,
anything else `-EINVAL`. -/
def nzxt_grid_hwmon_read_fan (channel_status : nzxt_grid_channel_status)
    (attr : Nat) : Except Int Int :=
  if attr = hwmon_fan_input then .ok channel_status.speed_rpm
  else .error (-EINVAL)

/-- `nzxt_grid_hwmon_read_pwm`: `hwmon_pwm_mode` yields 1 when the stored
type is `nzxt_grid_fan_pwm` and 0 otherwise; anything else `-EINVAL`. -/
def nzxt_grid_hwmon_read_pwm (channel_status : nzxt_grid_channel_status)
    (attr : Nat) : Except Int Int :=
  if attr = hwmon_pwm_mode then
    .ok (if channel_status.type = .fan_pwm then 1 else 0)
  else .error (-EINVAL)

/-- `nzxt_grid_hwmon_read_in`: `hwmon_in_input` yields `in_millivolt`. -/
def nzxt_grid_hwmon_read_in (channel_status : nzxt_grid_channel_status)
    (attr : Nat) : Except Int Int :=
  if attr = hwmon_in_input then .ok channel_status.in_millivolt
  else .error (-EINVAL)

/-- `nzxt_grid_hwmon_read_curr`: `hwmon_curr_input` yields `curr_milliamp`. -/
def nzxt_grid_hwmon_read_curr (channel_status : nzxt_grid_channel_status)
    (attr : Nat) : Except Int Int :=
  if attr = hwmon_curr_input then .ok channel_status.curr_milliamp
  else .error (-EINVAL)

/-- `nzxt_grid_hwmon_read`: dispatch on the sensor type over
`grid->channel[channel]` (under the reader lock); unknown types give
`-EINVAL`. -/
def nzxt_grid_hwmon_read (cache : Cache) (type : hwmon_sensor_types)
    (attr : Nat) (channel : Fin NZXT_GRID_MAX_CHANNELS) : Except Int Int :=
  match type with
  | .hwmon_fan => nzxt_grid_hwmon_read_fan (cache channel) attr
  | .hwmon_pwm => nzxt_grid_hwmon_read_pwm (cache channel) attr
  | .hwmon_in => nzxt_grid_hwmon_read_in (cache channel) attr
  | .hwmon_curr => nzxt_grid_hwmon_read_curr (cache channel) attr
  | _ => .error (-EINVAL)

/-- `nzxt_grid_hwmon_write_pwm`: only `hwmon_pwm_input` is writable. -/
def nzxt_grid_hwmon_write_pwm (env : SendEnv) (attr : Nat)
    (channel val : Int) : List (List Nat) × Int :=
  if attr = hwmon_pwm_input then nzxt_grid_hwmon_write_pwm_input env channel val
  else ([], -EINVAL)

/-- `nzxt_grid_hwmon_write`: only sensor type `hwmon_pwm` is writable. -/
def nzxt_grid_hwmon_write (env : SendEnv) (type : hwmon_sensor_types)
    (attr : Nat) (channel val : Int) : List (List Nat) × Int :=
  match type with
  | .hwmon_pwm => nzxt_grid_hwmon_write_pwm env attr channel val
  | _ => ([], -EINVAL)

/-- `struct nzxt_grid_command_output_report`: report id 2 then the command
byte. -/
def nzxt_grid_command_output_report (command : Nat) : List Nat :=
  [nzxt_grid_report_id_command, command]

/-- `nzxt_grid_detect_fans`: send the 0x5c simple command. -/
def nzxt_grid_detect_fans (env : SendEnv) : List (List Nat) × Int :=
  nzxt_grid_send_output_report env
    (nzxt_grid_command_output_report nzxt_grid_command_detect_fans)

/-- `nzxt_grid_start_reporting`: send the 0x5d simple command. -/
def nzxt_grid_start_reporting (env : SendEnv) : List (List Nat) × Int :=
  nzxt_grid_send_output_report env
    (nzxt_grid_command_output_report nzxt_grid_command_start_reporting)

/-- The 65-byte buffer the detect-fans command submits. -/
def nzxt_grid_detect_fans_buffer : List Nat :=
  nzxt_grid_command_output_report nzxt_grid_command_detect_fans ++
    List.replicate 63 0

/-- The 65-byte buffer the start-reporting command submits. -/
def nzxt_grid_start_reporting_buffer : List Nat :=
  nzxt_grid_command_output_report nzxt_grid_command_start_reporting ++
    List.replicate 63 0

/-- Externally observable steps of `nzxt_grid_probe`: the HID transport
calls that succeed, output-report submissions, hwmon registration and the
teardown calls. -/
inductive HidAction where
  | hw_start
  | hw_open
  | io_start
  | submit (buffer : List Nat)
  | hwmon_register
  | hw_close
  | hw_stop
deriving DecidableEq

/-- Outcomes of the external calls `nzxt_grid_probe` makes: `hid_parse`,
`hid_hw_start`, `hid_hw_open` return values, the two command sends'
environments, and the `hwmon_device_register_with_info` outcome (0 for a
valid pointer, the `PTR_ERR` value otherwise). -/
structure ProbeEnv where
  parseRet : Int
  startRet : Int
  openRet : Int
  detect : SendEnv
  reporting : SendEnv
  hwmonRet : Int
deriving DecidableEq

/-- `nzxt_grid_probe`: parse descriptors, start the transport, open the
input stream, start I/O, send detect-fans then start-reporting, register
the hwmon device; on a failure past a successful step, unwind with
`hid_hw_close` / `hid_hw_stop` via the goto ladder.  Returns the trace of
observable actions and the probe's return value. -/
def nzxt_grid_probe (env : ProbeEnv) : List HidAction × Int :=
  if env.parseRet ≠ 0 then ([], env.parseRet)
  else if env.startRet ≠ 0 then ([], env.startRet)
  else if env.openRet ≠ 0 then ([.hw_start, .hw_stop], env.openRet)
  else if (nzxt_grid_detect_fans env.detect).2 ≠ 0 then
    ([.hw_start, .hw_open, .io_start] ++
       (nzxt_grid_detect_fans env.detect).1.map HidAction.submit ++
       [.hw_close, .hw_stop],
     (nzxt_grid_detect_fans env.detect).2)
  else if (nzxt_grid_start_reporting env.reporting).2 ≠ 0 then
    ([.hw_start, .hw_open, .io_start] ++
       (nzxt_grid_detect_fans env.detect).1.map HidAction.submit ++
       (nzxt_grid_start_reporting env.reporting).1.map HidAction.submit ++
       [.hw_close, .hw_stop],
     (nzxt_grid_start_reporting env.reporting).2)
  else if env.hwmonRet ≠ 0 then
    ([.hw_start, .hw_open, .io_start] ++
       (nzxt_grid_detect_fans env.detect).1.map HidAction.submit ++
       (nzxt_grid_start_reporting env.reporting).1.map HidAction.submit ++
       [.hw_close, .hw_stop],
     env.hwmonRet)
  else
    ([.hw_start, .hw_open, .io_start] ++
       (nzxt_grid_detect_fans env.detect).1.map HidAction.submit ++
       (nzxt_grid_start_reporting env.reporting).1.map HidAction.submit ++
       [.hwmon_register],
     0)

/-- The channel update record exactly as the specification's wire-layout
sentences word it: channel index `byte15 / 16` (shift right by 4), fan type
`byte15 mod 4` (mask 0x03) mapping 1 to dc and 2 to pwm and everything else
to none, big-endian rpm at offset 3, `volt*1000 + centivolt*10` millivolts,
`amp*1000 + centiamp*10` milliamps. -/
def spec_status_update (data : List Nat) : nzxt_grid_channel_status :=
  { type :=
      if data.getD 15 0 % 4 = 1 then .fan_dc
      else if data.getD 15 0 % 4 = 2 then .fan_pwm
      else .fan_none
    speed_rpm := (data.getD 3 0 : Int) * 256 + (data.getD 4 0 : Int)
    in_millivolt := (data.getD 7 0 : Int) * 1000 + (data.getD 8 0 : Int) * 10
    curr_milliamp := (data.getD 9 0 : Int) * 1000 + (data.getD 10 0 : Int) * 10 }

/-- Concrete status report from scenario S1 of the spec: rpm 1500, 12 V
whole / 10 centivolt, 1 A whole / 50 centiamp, byte 15 = 0x12 (channel 1,
type pwm). -/
def sample_status_report : List Nat :=
  [4, 0, 0, 5, 220, 0, 0, 12, 10, 1, 50, 0, 0, 0, 0, 0x12, 0, 0, 0, 0, 0]

/-- The same 21 bytes with the report-id byte changed to 0. -/
def sample_bad_id_report : List Nat :=
  [0, 0, 0, 5, 220, 0, 0, 12, 10, 1, 50, 0, 0, 0, 0, 0x12, 0, 0, 0, 0, 0]

/-- A 21-byte buffer with byte 15 = 0x62: channel index 6, out of range
(scenario S4). -/
def sample_out_of_range_report : List Nat :=
  [4, 0, 0, 5, 220, 0, 0, 12, 10, 1, 50, 0, 0, 0, 0, 0x62, 0, 0, 0, 0, 0]

/-- A probe environment in which every external call succeeds. -/
def probe_env_ok : ProbeEnv :=
  { parseRet := 0, startRet := 0, openRet := 0,
    detect := { allocOk := true, submitRet := 65 },
    reporting := { allocOk := true, submitRet := 65 },
    hwmonRet := 0 }

/-- A send environment in which allocation and submission succeed. -/
def send_env_ok : SendEnv := { allocOk := true, submitRet := 65 }

example : nzxt_grid_get_channel_index sample_status_report = 1 := by decide
example : nzxt_grid_parse_update sample_status_report =
    { type := .fan_pwm, speed_rpm := 1500, in_millivolt := 12100,
      curr_milliamp := 1500 } := by decide
example : nzxt_grid_pwm_to_percent 128 = 50 := by decide
example : nzxt_grid_pwm_to_percent (-1) = 0 := by decide
example : nzxt_grid_pwm_to_percent 1000 = 100 := by decide

lemma land_three_eq_mod (n : Nat) : n &&& 3 = n % 4 := by
  have h := Nat.and_pow_two_sub_one_eq_mod n 2
  norm_num at h
  exact h

lemma shiftRight_four_eq_div (n : Nat) : n >>> 4 = n / 16 := by omega

lemma send_output_report_ok (env : SendEnv) (data : List Nat)
    (h : env.allocOk = true) :
    nzxt_grid_send_output_report env data =
      ([data ++ List.replicate (NZXT_GRID_OUTPUT_REPORT_SIZE - data.length) 0],
       if env.submitRet < 0 then env.submitRet else 0) := by
  simp [nzxt_grid_send_output_report, h]

/-- C1: parsing a 21-byte status report yields the update record of the
wire layout — channel index `byte15 >> 4` (= `byte15 / 16`), fan type
`byte15 & 0x03` mapping 1 to dc and 2 to pwm and every other value to
none, big-endian 16-bit rpm at offset 3, `byte7*1000 + byte8*10`
millivolts and `byte9*1000 + byte10*10` milliamps — for every 21-byte
input. -/
theorem status_report_wire_layout (data : List Nat) (h : data.length = 21) :
    nzxt_grid_get_channel_index data = data.getD 15 0 / 16 ∧
    nzxt_grid_parse_update data = spec_status_update data := by
  constructor
  · rw [nzxt_grid_get_channel_index, shiftRight_four_eq_div]
  · unfold nzxt_grid_parse_update spec_status_update nzxt_grid_fan_type_of_raw
      nzxt_grid_get_fan_type
    rw [show (0x3 : Nat) = 3 from rfl, land_three_eq_mod]

/-- Witness for C1 at the concrete S1 report. -/
theorem status_report_wire_layout_witness :
    sample_status_report.length = 21 ∧
    nzxt_grid_parse_update sample_status_report =
      spec_status_update sample_status_report :=
  ⟨by decide, (status_report_wire_layout sample_status_report (by decide)).2⟩

/-- C2: the duty mapping stays in [0,100], clamps every `v ≤ 0` to 0 and
every `v ≥ 255` to 100, equals `v*100/255` (truncated) for `0 < v < 255`,
and is monotonically non-decreasing. -/
theorem pwm_to_percent_spec (v w : Int) (hvw : v ≤ w) :
    nzxt_grid_pwm_to_percent v ≤ 100 ∧
    (v ≤ 0 → nzxt_grid_pwm_to_percent v = 0) ∧
    (255 ≤ v → nzxt_grid_pwm_to_percent v = 100) ∧
    (0 < v → v < 255 → (nzxt_grid_pwm_to_percent v : Int) = v * 100 / 255) ∧
    nzxt_grid_pwm_to_percent v ≤ nzxt_grid_pwm_to_percent w := by
  unfold nzxt_grid_pwm_to_percent
  split_ifs <;> refine ⟨?_, ?_, ?_, ?_, ?_⟩ <;> omega

/-- Witness for C2 at v = -5, w = 300. -/
theorem pwm_to_percent_spec_witness :
    nzxt_grid_pwm_to_percent (-5) ≤ 100 ∧
    ((-5 : Int) ≤ 0 → nzxt_grid_pwm_to_percent (-5) = 0) ∧
    ((255 : Int) ≤ -5 → nzxt_grid_pwm_to_percent (-5) = 100) ∧
    ((0 : Int) < -5 → (-5 : Int) < 255 →
      (nzxt_grid_pwm_to_percent (-5) : Int) = -5 * 100 / 255) ∧
    nzxt_grid_pwm_to_percent (-5) ≤ nzxt_grid_pwm_to_percent 300 :=
  pwm_to_percent_spec (-5) 300 (by decide)

/-- C3: building a set-fan-speed command with channel c and duty d and
sending it submits exactly one 65-byte buffer whose first five bytes are
(0x02, 0x4D, c, 0, d) and whose bytes 5..64 are all zero. -/
theorem set_fan_speed_roundtrip (env : SendEnv) (c d : Nat)
    (h : env.allocOk = true) :
    ∃ buf,
      (nzxt_grid_send_output_report env
          (nzxt_grid_command_set_fan_speed_output_report c d)).1 = [buf] ∧
      buf.length = 65 ∧
      buf.take 5 = [0x02, 0x4d, c, 0, d] ∧
      buf.drop 5 = List.replicate 60 0 := by
  refine ⟨nzxt_grid_command_set_fan_speed_output_report c d ++
      List.replicate 60 0, ?_, ?_, ?_, ?_⟩
  · rw [send_output_report_ok env _ h]
    rfl
  · simp [nzxt_grid_command_set_fan_speed_output_report]
  · simp [nzxt_grid_command_set_fan_speed_output_report,
      nzxt_grid_report_id_command, nzxt_grid_command_set_fan_speed]
  · simp [nzxt_grid_command_set_fan_speed_output_report]

/-- Witness for C3 at channel 2, duty 50 with a successful allocation. -/
theorem set_fan_speed_roundtrip_witness :
    send_env_ok.allocOk = true ∧
    ∃ buf,
      (nzxt_grid_send_output_report send_env_ok
          (nzxt_grid_command_set_fan_speed_output_report 2 50)).1 = [buf] ∧
      buf.length = 65 ∧
      buf.take 5 = [0x02, 0x4d, 2, 0, 50] ∧
      buf.drop 5 = List.replicate 60 0 :=
  ⟨rfl, set_fan_speed_roundtrip send_env_ok 2 50 rfl⟩

/-- C4: a buffer whose length is not 21, or a 21-byte buffer whose decoded
channel index is at least 6, leaves every cache entry unchanged; raw_event
always returns 0. -/
theorem raw_event_rejects_malformed (data : List Nat) (cache : Cache) :
    (data.length ≠ 21 → nzxt_grid_raw_event data cache = (cache, 0)) ∧
    (NZXT_GRID_MAX_CHANNELS ≤ nzxt_grid_get_channel_index data →
      nzxt_grid_raw_event data cache = (cache, 0)) ∧
    (nzxt_grid_raw_event data cache).2 = 0 := by
  refine ⟨fun h => by simp [nzxt_grid_raw_event, h], fun h => ?_, ?_⟩
  · have h' : ¬ nzxt_grid_get_channel_index data < NZXT_GRID_MAX_CHANNELS := by
      omega
    unfold nzxt_grid_raw_event
    split_ifs <;> simp_all
  · unfold nzxt_grid_raw_event
    split_ifs <;> rfl

/-- Witness for C4: a 2-byte buffer and the out-of-range S4 report both
leave the zero cache unchanged. -/
theorem raw_event_rejects_malformed_witness :
    nzxt_grid_raw_event [4, 0] cache_zero = (cache_zero, 0) ∧
    nzxt_grid_raw_event sample_out_of_range_report cache_zero =
      (cache_zero, 0) :=
  ⟨(raw_event_rejects_malformed [4, 0] cache_zero).1 (by decide),
   (raw_event_rejects_malformed sample_out_of_range_report cache_zero).2.1
     (by decide)⟩

/-- C5: a valid 21-byte status report with channel index c < 6 sets cache
entry c to exactly the parsed update and leaves every other entry
unchanged. -/
theorem raw_event_applies_update (data : List Nat) (cache : Cache)
    (hlen : data.length = 21)
    (hid : data.getD 0 0 = nzxt_grid_report_id_status)
    (h : nzxt_grid_get_channel_index data < NZXT_GRID_MAX_CHANNELS) :
    (nzxt_grid_raw_event data cache).2 = 0 ∧
    (nzxt_grid_raw_event data cache).1
        ⟨nzxt_grid_get_channel_index data, h⟩ =
      nzxt_grid_parse_update data ∧
    ∀ j : Fin NZXT_GRID_MAX_CHANNELS,
      (j : Nat) ≠ nzxt_grid_get_channel_index data →
      (nzxt_grid_raw_event data cache).1 j = cache j := by
  have hne : ¬ data.length ≠ 21 := by omega
  have heq : nzxt_grid_raw_event data cache =
      (Function.update cache ⟨nzxt_grid_get_channel_index data, h⟩
        (nzxt_grid_parse_update data), 0) := by
    unfold nzxt_grid_raw_event
    rw [if_neg hne, dif_pos h]
  refine ⟨by rw [heq], by rw [heq]; exact Function.update_same _ _ _, ?_⟩
  intro j hj
  rw [heq]
  exact Function.update_noteq (Fin.ne_of_val_ne hj) _ _

/-- Witness for C5 at the concrete S1 report over the zero cache. -/
theorem raw_event_applies_update_witness :
    (nzxt_grid_raw_event sample_status_report cache_zero).1
        ⟨nzxt_grid_get_channel_index sample_status_report, by decide⟩ =
      nzxt_grid_parse_update sample_status_report ∧
    (nzxt_grid_raw_event sample_status_report cache_zero).1 ⟨0, by decide⟩ =
      cache_zero ⟨0, by decide⟩ :=
  ⟨(raw_event_applies_update sample_status_report cache_zero (by decide)
      (by decide) (by decide)).2.1,
   (raw_event_applies_update sample_status_report cache_zero (by decide)
      (by decide) (by decide)).2.2 ⟨0, by decide⟩ (by decide)⟩

/-- C6: the read dispatch returns `speed_rpm` for (fan, input), the pwm
mode bit for (pwm, mode), `in_millivolt` for (in, input), `curr_milliamp`
for (curr, input), and `-EINVAL` for every other (kind, attribute) pair. -/
theorem hwmon_read_spec (cache : Cache)
    (channel : Fin NZXT_GRID_MAX_CHANNELS) :
    nzxt_grid_hwmon_read cache .hwmon_fan hwmon_fan_input channel =
      .ok (cache channel).speed_rpm ∧
    nzxt_grid_hwmon_read cache .hwmon_pwm hwmon_pwm_mode channel =
      .ok (if (cache channel).type = .fan_pwm then 1 else 0) ∧
    nzxt_grid_hwmon_read cache .hwmon_in hwmon_in_input channel =
      .ok (cache channel).in_millivolt ∧
    nzxt_grid_hwmon_read cache .hwmon_curr hwmon_curr_input channel =
      .ok (cache channel).curr_milliamp ∧
    ∀ (type : hwmon_sensor_types) (attr : Nat),
      ¬((type = .hwmon_fan ∧ attr = hwmon_fan_input) ∨
        (type = .hwmon_pwm ∧ attr = hwmon_pwm_mode) ∨
        (type = .hwmon_in ∧ attr = hwmon_in_input) ∨
        (type = .hwmon_curr ∧ attr = hwmon_curr_input)) →
      nzxt_grid_hwmon_read cache type attr channel = .error (-EINVAL) := by
  refine ⟨rfl, rfl, rfl, rfl, ?_⟩
  intro type attr hn
  cases type <;>
    simp_all [nzxt_grid_hwmon_read, nzxt_grid_hwmon_read_fan,
      nzxt_grid_hwmon_read_pwm, nzxt_grid_hwmon_read_in,
      nzxt_grid_hwmon_read_curr]

/-- Witness for C6: a successful (fan, input) read and a failing
(temp, 0) read over the zero cache. -/
theorem hwmon_read_spec_witness :
    nzxt_grid_hwmon_read cache_zero .hwmon_fan hwmon_fan_input
        ⟨0, by decide⟩ =
      .ok (cache_zero ⟨0, by decide⟩).speed_rpm ∧
    nzxt_grid_hwmon_read cache_zero .hwmon_temp 0 ⟨0, by decide⟩ =
      .error (-EINVAL) :=
  ⟨(hwmon_read_spec cache_zero ⟨0, by decide⟩).1,
   (hwmon_read_spec cache_zero ⟨0, by decide⟩).2.2.2.2 .hwmon_temp 0
     (by decide)⟩

/-- C7: a write produces a command submission only for sensor kind pwm with
attribute pwm-input; every other write returns `-EINVAL` and submits
nothing. -/
theorem hwmon_write_gate (env : SendEnv) (type : hwmon_sensor_types)
    (attr : Nat) (channel val : Int) :
    ((nzxt_grid_hwmon_write env type attr channel val).1 ≠ [] →
      type = .hwmon_pwm ∧ attr = hwmon_pwm_input) ∧
    (¬(type = .hwmon_pwm ∧ attr = hwmon_pwm_input) →
      nzxt_grid_hwmon_write env type attr channel val = ([], -EINVAL)) := by
  constructor
  · intro hne
    cases type
    case hwmon_pwm =>
      by_cases h : attr = hwmon_pwm_input
      · exact ⟨rfl, h⟩
      · refine absurd ?_ hne
        simp [nzxt_grid_hwmon_write, nzxt_grid_hwmon_write_pwm, h]
    all_goals exact absurd rfl hne
  · intro hn
    cases type
    case hwmon_pwm =>
      have h : attr ≠ hwmon_pwm_input := fun ha => hn ⟨rfl, ha⟩
      simp [nzxt_grid_hwmon_write, nzxt_grid_hwmon_write_pwm, h]
    all_goals rfl

/-- Witness for C7: a (fan, input) write fails with -EINVAL and submits
nothing. -/
theorem hwmon_write_gate_witness :
    nzxt_grid_hwmon_write send_env_ok .hwmon_fan hwmon_fan_input 0 0 =
      ([], -EINVAL) :=
  (hwmon_write_gate send_env_ok .hwmon_fan hwmon_fan_input 0 0).2 (by decide)

/-- C10: the pwm-input write applies no range check to the channel: for
every integer channel (negative or ≥ 6 included) it submits the command
whose byte 2 is the channel reduced modulo 256, the effect of the
`(uint8_t)channel` cast. -/
theorem hwmon_write_no_channel_check (env : SendEnv) (channel val : Int)
    (h : env.allocOk = true) :
    (nzxt_grid_hwmon_write env .hwmon_pwm hwmon_pwm_input channel val).1 =
      [nzxt_grid_command_set_fan_speed_output_report (channel % 256).toNat
         (nzxt_grid_pwm_to_percent val) ++ List.replicate 60 0] ∧
    (((nzxt_grid_hwmon_write env .hwmon_pwm hwmon_pwm_input channel
        val).1.headD []).getD 2 0) = (channel % 256).toNat := by
  have e : nzxt_grid_hwmon_write env .hwmon_pwm hwmon_pwm_input channel val =
      nzxt_grid_send_output_report env
        (nzxt_grid_command_set_fan_speed_output_report (channel % 256).toNat
          (nzxt_grid_pwm_to_percent val)) := rfl
  rw [e, send_output_report_ok _ _ h]
  exact ⟨rfl, rfl⟩

/-- Witness for C10 at the negative channel -1 (byte 2 becomes 255). -/
theorem hwmon_write_no_channel_check_witness :
    send_env_ok.allocOk = true ∧
    (((nzxt_grid_hwmon_write send_env_ok .hwmon_pwm hwmon_pwm_input (-1)
        128).1.headD []).getD 2 0) = ((-1 : Int) % 256).toNat :=
  ⟨rfl, (hwmon_write_no_channel_check send_env_ok (-1) 128 rfl).2⟩

/-- C9 counterexample: `nzxt_grid_raw_event` itself never inspects byte 0.
This 21-byte buffer has report-id byte 0 (≠ 4) yet changes the cache. -/
theorem raw_event_ignores_report_id :
    sample_bad_id_report.length = 21 ∧
    sample_bad_id_report.getD 0 0 ≠ nzxt_grid_report_id_status ∧
    (nzxt_grid_raw_event sample_bad_id_report cache_zero).1 ≠ cache_zero := by
  refine ⟨by decide, by decide, fun heq => ?_⟩
  have h1 := congrFun heq ⟨1, by decide⟩
  exact absurd h1 (by decide)

/-- C9 (amended): the driver's declared report table lists only status id
4, so the HID core's table-filtered delivery drops every buffer whose first
byte differs from 4, leaving every cache entry unchanged with success. -/
theorem report_id_filtered_by_report_table (data : List Nat) (cache : Cache)
    (h : data.getD 0 0 ≠ nzxt_grid_report_id_status) :
    nzxt_grid_deliver_event data cache = (cache, 0) := by
  unfold nzxt_grid_deliver_event
  rw [if_neg]
  simpa [nzxt_grid_reports] using h

/-- Witness for the amended C9 at the concrete bad-id report. -/
theorem report_id_filtered_by_report_table_witness :
    nzxt_grid_deliver_event sample_bad_id_report cache_zero =
      (cache_zero, 0) :=
  report_id_filtered_by_report_table sample_bad_id_report cache_zero
    (by decide)

lemma detect_fans_ok (env : SendEnv)
    (h : (nzxt_grid_detect_fans env).2 = 0) :
    (nzxt_grid_detect_fans env).1 = [nzxt_grid_detect_fans_buffer] := by
  have ha : env.allocOk = true := by
    by_contra hn
    have hf : env.allocOk = false := by simpa using hn
    simp [nzxt_grid_detect_fans, nzxt_grid_send_output_report, hf, ENOMEM]
      at h
  unfold nzxt_grid_detect_fans
  rw [send_output_report_ok _ _ ha]
  rfl

lemma start_reporting_ok (env : SendEnv)
    (h : (nzxt_grid_start_reporting env).2 = 0) :
    (nzxt_grid_start_reporting env).1 =
      [nzxt_grid_start_reporting_buffer] := by
  have ha : env.allocOk = true := by
    by_contra hn
    have hf : env.allocOk = false := by simpa using hn
    simp [nzxt_grid_start_reporting, nzxt_grid_send_output_report, hf,
      ENOMEM] at h
  unfold nzxt_grid_start_reporting
  rw [send_output_report_ok _ _ ha]
  rfl

/-- C8: a successful probe's observable trace is exactly transport start,
open, io-start, the 0x5c submit, the 0x5d submit, then hwmon registration
(two 65-byte command submissions, in that order, registration after both);
a failed probe never registers and unwinds the successful steps in reverse
(close then stop when open succeeded, stop alone when only start did). -/
theorem probe_handshake (env : ProbeEnv) :
    ((nzxt_grid_probe env).2 = 0 →
      (nzxt_grid_probe env).1 =
        [.hw_start, .hw_open, .io_start,
         .submit nzxt_grid_detect_fans_buffer,
         .submit nzxt_grid_start_reporting_buffer,
         .hwmon_register] ∧
      nzxt_grid_detect_fans_buffer.length = 65 ∧
      nzxt_grid_detect_fans_buffer.take 2 = [0x02, 0x5c] ∧
      nzxt_grid_start_reporting_buffer.length = 65 ∧
      nzxt_grid_start_reporting_buffer.take 2 = [0x02, 0x5d]) ∧
    ((nzxt_grid_probe env).2 ≠ 0 →
      HidAction.hwmon_register ∉ (nzxt_grid_probe env).1 ∧
      (HidAction.hw_open ∈ (nzxt_grid_probe env).1 →
        ∃ pre, (nzxt_grid_probe env).1 = pre ++ [.hw_close, .hw_stop]) ∧
      (HidAction.hw_open ∉ (nzxt_grid_probe env).1 →
        HidAction.hw_start ∈ (nzxt_grid_probe env).1 →
        (nzxt_grid_probe env).1 = [.hw_start, .hw_stop])) := by
  unfold nzxt_grid_probe
  split_ifs with h1 h2 h3 h4 h5 h6
  · exact ⟨fun h0 => absurd h0 h1,
      fun _ => ⟨by simp, fun hm => absurd hm (by simp),
        fun _ hm => absurd hm (by simp)⟩⟩
  · exact ⟨fun h0 => absurd h0 h2,
      fun _ => ⟨by simp, fun hm => absurd hm (by simp),
        fun _ hm => absurd hm (by simp)⟩⟩
  · exact ⟨fun h0 => absurd h0 h3,
      fun _ => ⟨by simp, fun hm => absurd hm (by simp),
        fun _ _ => rfl⟩⟩
  · refine ⟨fun h0 => absurd h0 h4, fun _ => ⟨?_, fun _ => ?_, fun ho _ => ?_⟩⟩
    · simp
    · exact ⟨[.hw_start, .hw_open, .io_start] ++
        (nzxt_grid_detect_fans env.detect).1.map HidAction.submit, by simp⟩
    · exact absurd (by simp) ho
  · refine ⟨fun h0 => absurd h0 h5, fun _ => ⟨?_, fun _ => ?_, fun ho _ => ?_⟩⟩
    · simp
    · exact ⟨[.hw_start, .hw_open, .io_start] ++
        (nzxt_grid_detect_fans env.detect).1.map HidAction.submit ++
        (nzxt_grid_start_reporting env.reporting).1.map HidAction.submit,
        by simp⟩
    · exact absurd (by simp) ho
  · refine ⟨fun h0 => absurd h0 h6, fun _ => ⟨?_, fun _ => ?_, fun ho _ => ?_⟩⟩
    · simp
    · exact ⟨[.hw_start, .hw_open, .io_start] ++
        (nzxt_grid_detect_fans env.detect).1.map HidAction.submit ++
        (nzxt_grid_start_reporting env.reporting).1.map HidAction.submit,
        by simp⟩
    · exact absurd (by simp) ho
  · refine ⟨fun _ => ⟨?_, rfl, rfl, rfl, rfl⟩, fun hne => absurd rfl hne⟩
    rw [detect_fans_ok env.detect (not_not.mp h4),
      start_reporting_ok env.reporting (not_not.mp h5)]
    rfl

/-- Witness for C8: the all-success probe environment registers after the
two handshake submits. -/
theorem probe_handshake_witness :
    (nzxt_grid_probe probe_env_ok).1 =
      [.hw_start, .hw_open, .io_start,
       .submit nzxt_grid_detect_fans_buffer,
       .submit nzxt_grid_start_reporting_buffer,
       .hwmon_register] ∧
    nzxt_grid_detect_fans_buffer.length = 65 ∧
    nzxt_grid_detect_fans_buffer.take 2 = [0x02, 0x5c] ∧
    nzxt_grid_start_reporting_buffer.length = 65 ∧
    nzxt_grid_start_reporting_buffer.take 2 = [0x02, 0x5d] :=
  (probe_handshake probe_env_ok).1 (by decide)

end NzxtGrid
